import Mathlib

/-!
The legacy (v1alpha1) publish route.

A shallow embedding of `internal/publish/publish_v1alpha1.go`:
`handleV1Apha1Request` (decode, up-conversion, hand-over to the processor) and
`HandleV1Alpha1` (chaff tracker, maintenance gate, padding step, down-conversion,
deferred metrics, encoding).

Effects are made explicit: a handler returns the ordered list of the effects it
performs (`Event`).  Code that the file calls but does not define (the JSON
decoder, the processor, the padding generator, the platform helper) is taken
from an environment `Env`, one fixed answer per request.
-/

/-! ## Wire types -/

namespace verifyapi

/-- The canonical exposure key: the four fields the up-conversion fills. -/
structure ExposureKey where
  Key : String
  IntervalNumber : Int
  IntervalCount : Int
  TransmissionRisk : Int
  deriving DecidableEq, Repr, Inhabited

/-- The canonical publish request: the fields of the composite literal built by
`handleV1Apha1Request`. -/
structure Publish where
  Keys : List ExposureKey
  HealthAuthorityID : String
  VerificationPayload : String
  HMACKey : String
  SymptomOnsetInterval : Int
  Traveler : Bool
  RevisionToken : String
  Padding : String
  deriving DecidableEq, Repr

/-- The canonical publish response: the fields read by the down-conversion. -/
structure PublishResponse where
  RevisionToken : String
  InsertedExposures : Int
  ErrorMessage : String
  Padding : String
  Warnings : List String
  deriving DecidableEq, Repr

end verifyapi

namespace v1alpha1

/-- The legacy exposure key. -/
structure ExposureKey where
  Key : String
  IntervalNumber : Int
  IntervalCount : Int
  TransmissionRisk : Int
  deriving DecidableEq, Repr

/-- The legacy publish request: the fields read by `handleV1Apha1Request`.
A Go slice is a list here; the nil slice (an absent JSON field) has length 0 and
ranges over nothing, so it is the empty list. -/
structure Publish where
  Keys : List ExposureKey
  Regions : List String
  AppPackageName : String
  VerificationPayload : String
  HMACKey : String
  SymptomOnsetInterval : Int
  RevisionToken : String
  Padding : String
  deriving DecidableEq, Repr

/-- The legacy publish response: the fields written by the down-conversion. -/
structure PublishResponse where
  RevisionToken : String
  InsertedExposures : Int
  Error : String
  Padding : String
  Warnings : List String
  deriving DecidableEq, Repr

end v1alpha1

namespace publish

/-! ## Effects -/

/-- The measures of the package.  `mBadJSON` and `mPaddingFailed` are the two
named in the file; `other` stands for every measure recorded elsewhere. -/
inductive Measure where
  | mBadJSON
  | mPaddingFailed
  | other (name : String)
  deriving DecidableEq, Repr

/-- Modelled from the spec: the version bridge built by `newVersionBridge`
(defined outside the file), closed over the Regions captured from the legacy
request. -/
structure versionBridge where
  Regions : List String
  deriving DecidableEq, Repr

/-- Modelled from the spec: `newVersionBridge` captures the Regions of the
request. -/
def newVersionBridge (regions : List String) : versionBridge :=
  { Regions := regions }

/-- The observable effects of one request, in the order they happen. -/
inductive Event where
  /-- Call of `trace.StartSpan` with the span name. -/
  | startSpan (name : String)
  /-- Deferred `span.End()`. -/
  | spanEnd
  /-- Call of `span.SetStatus` with the message. -/
  | spanSetStatus (message : String)
  /-- Call of `w.Header().Set`. -/
  | setHeader (key value : String)
  /-- Call of `jsonutil.Unmarshal`: the body is decoded. -/
  | unmarshal
  /-- Call of `h.process` with its three arguments. -/
  | process (req : verifyapi.Publish) (clientPlatform : String) (bridge : versionBridge)
  /-- Call of `generatePadding` with its two arguments. -/
  | generatePadding (minBytes rangeBytes : Int)
  /-- Call of `stats.Record` made by the handler itself. -/
  | record (m : Measure) (v : Int)
  /-- Call of the logger's `Errorw`. -/
  | logError (msg err : String)
  /-- Call of the result's `metrics` closure, with the measurements it records. -/
  | metrics (recorded : List (Measure × Int))
  /-- Call of `jsonutil.MarshalResponse`: the legacy response is encoded and written. -/
  | marshalResponse (status : Int) (resp : v1alpha1.PublishResponse)
  /-- The chaff tracker answered the request itself. -/
  | handleChaff
  /-- The maintenance gate answered the request itself: the status, the message
  and the Padding of the response it wrote. -/
  | maintenanceResponse (status : Int) (message padding : String)
  deriving DecidableEq, Repr

/-- Modelled from the spec: the internal processing result (`response`, declared
outside the file): HTTP status, canonical response, and the deferred metrics
closure.  The handler dereferences the result and its `pubResponse` without a
check, so both are plain values; it tests `metrics` against nil, so that field
is optional.  A metrics closure is the list of measurements it records. -/
structure response where
  status : Int
  pubResponse : verifyapi.PublishResponse
  metrics : Option (List (Measure × Int))
  deriving DecidableEq, Repr

/-- An HTTP request, as far as the route reads it. -/
structure Request where
  header : List (String × String)
  userAgent : String
  body : String
  deriving DecidableEq, Repr

/-- What `jsonutil.Unmarshal` hands back: the status code, the error (nil on
success) and the decoded value. -/
structure UnmarshalResult where
  code : Int
  err : Option String
  data : v1alpha1.Publish
  deriving DecidableEq, Repr

/-- The part of `Config` the route reads. -/
structure Config where
  ResponsePaddingMinBytes : Int
  ResponsePaddingRange : Int
  MaintenanceMode : Bool
  deriving DecidableEq, Repr

/-- Everything the file calls and does not define. -/
structure Env where
  config : Config
  HeaderAPIVersion : String
  Unmarshal : Request → UnmarshalResult
  platform : String → String
  process : verifyapi.Publish → String → versionBridge → response
  generatePadding : Int → Int → Except String String
  /-- The status of the fixed unavailability response of the maintenance gate. -/
  maintenanceStatus : Int
  /-- The message of the fixed unavailability response of the maintenance gate. -/
  maintenanceMessage : String

/-- Modelled from the spec: the contract of the processor `process` (defined
outside the file) on padding.  Its response assembly fills RevisionToken,
InsertedExposures, ErrorMessage and Warnings; padding is added after the
processor, by the padding step, so the result it returns holds no Padding. -/
def processLeavesPaddingEmpty (res : response) : Bool :=
  decide (res.pubResponse.Padding = "")

/-- Modelled from the spec: the contract of the decoder `jsonutil.Unmarshal`
(package internal/jsonutil, defined outside the file): a body that fails to decode is a
ClientError, reported with a 4xx-class status code. -/
def decoderReportsClientError (u : UnmarshalResult) : Bool :=
  u.err.isNone || (decide (400 ≤ u.code) && decide (u.code < 500))

/-! ## `handleV1Apha1Request` -/

/-- The body of the key loop: the composite literal assigned to `v1keys[i]`. -/
def upconvertKey (k : v1alpha1.ExposureKey) : verifyapi.ExposureKey :=
  { Key := k.Key
    IntervalNumber := k.IntervalNumber
    IntervalCount := k.IntervalCount
    TransmissionRisk := k.TransmissionRisk }

/-- The key loop: `v1keys := make([]ExposureKey, len(data.Keys))` followed by
`for i, k := range data.Keys { v1keys[i] = ... }`. -/
def upconvertKeys (keys : List v1alpha1.ExposureKey) : List verifyapi.ExposureKey :=
  keys.enum.foldl (fun v1keys ik => v1keys.set ik.1 (upconvertKey ik.2))
    (List.replicate keys.length default)

/-- The composite literal `verifyapi.Publish{...}` of the up-conversion. -/
def upconvert (data : v1alpha1.Publish) : verifyapi.Publish :=
  { Keys := upconvertKeys data.Keys
    HealthAuthorityID := data.AppPackageName
    VerificationPayload := data.VerificationPayload
    HMACKey := data.HMACKey
    SymptomOnsetInterval := data.SymptomOnsetInterval
    Traveler := decide (data.Regions.length > 1)
    RevisionToken := data.RevisionToken
    Padding := data.Padding }

/-- The message of the decode-failure branch:
`fmt.Sprintf("error unmarshalling API call, code: %v: %v", code, err)`. -/
def unmarshalMessage (code : Int) (err : String) : String :=
  "error unmarshalling API call, code: " ++ toString code ++ ": " ++ err

/-- The inner request handler: the effects it performs and the result it
returns.  The deferred `span.End()` runs last. -/
def handleV1Apha1Request (env : Env) (r : Request) : List Event × response :=
  let pre := [Event.startSpan "(*publish.PublishHandler).handleRequest",
              Event.setHeader env.HeaderAPIVersion "v1alpha",
              Event.unmarshal]
  let u := env.Unmarshal r
  match u.err with
  | some err =>
    let message := unmarshalMessage u.code err
    (pre ++ [Event.spanSetStatus message, Event.spanEnd],
     { status := u.code
       pubResponse :=
         { RevisionToken := "", InsertedExposures := 0, ErrorMessage := message,
           Padding := "", Warnings := [] }
       metrics := some [(Measure.mBadJSON, 1)] })
  | none =>
    let data := u.data
    let publish := upconvert data
    let bridge := newVersionBridge data.Regions
    let clientPlatform := env.platform r.userAgent
    (pre ++ [Event.process publish clientPlatform bridge, Event.spanEnd],
     env.process publish clientPlatform bridge)

/-! ## `HandleV1Alpha1` -/

/-- The padding step: `generatePadding` is called with the two configured
values; on error the handler records `mPaddingFailed` and logs, and the
response stays as it is; on success `response.pubResponse.Padding` is
overwritten. -/
def applyPadding (env : Env) (resp : response) : List Event × response :=
  let call := Event.generatePadding env.config.ResponsePaddingMinBytes
    env.config.ResponsePaddingRange
  match env.generatePadding env.config.ResponsePaddingMinBytes
    env.config.ResponsePaddingRange with
  | Except.error err =>
    ([call, Event.record Measure.mPaddingFailed 1,
      Event.logError "failed to padd response" err], resp)
  | Except.ok padding =>
    ([call], { resp with pubResponse := { resp.pubResponse with Padding := padding } })

/-- The down-conversion: the composite literal `v1alpha1.PublishResponse{...}`. -/
def downconvert (p : verifyapi.PublishResponse) : v1alpha1.PublishResponse :=
  { RevisionToken := p.RevisionToken
    InsertedExposures := p.InsertedExposures
    Error := p.ErrorMessage
    Padding := p.Padding
    Warnings := p.Warnings }

/-- The guarded call `if response.metrics != nil { response.metrics() }`. -/
def runMetrics (resp : response) : List Event :=
  match resp.metrics with
  | some recorded => [Event.metrics recorded]
  | none => []

/-- The function literal passed to the maintenance gate: inner request
handler, padding step, down-conversion, metrics, encoding. -/
def innerHandler (env : Env) (r : Request) : List Event :=
  let inner := handleV1Apha1Request env r
  let padded := applyPadding env inner.2
  let alpha1Response := downconvert padded.2.pubResponse
  inner.1 ++ padded.1 ++ runMetrics padded.2
    ++ [Event.marshalResponse padded.2.status alpha1Response]

/-- The value of `Header.Get`: the first value stored under the key, the empty
string when there is none. -/
def headerGet (r : Request) (key : String) : String :=
  match r.header.find? (fun kv => kv.1 == key) with
  | some kv => kv.2
  | none => ""

/-- Modelled from the spec: the detector `chaff.HeaderDetector` (library
go-chaff, defined outside the file): a request is chaff when it carries the
designated header. -/
def HeaderDetector (h : String) (r : Request) : Bool :=
  headerGet r h != ""

/-- Modelled from the spec: the chaff tracker's `HandleTrack` (library
go-chaff, defined outside the file).  It wraps the inner handler chain; a
detected request is answered by the tracker itself, bypassing everything
inside; any other request goes to the wrapped handler. -/
def HandleTrack (detect : Request → Bool) (next : Request → List Event)
    (r : Request) : List Event :=
  if detect r then [Event.handleChaff] else next r

/-- Modelled from the spec: the fixed unavailability response of the
maintenance gate (package internal/maintenance, defined outside the file): a
distinct status and an explanatory message, no authentication or persistence
behind it, and no metrics closure. -/
def maintenanceResult (env : Env) : response :=
  { status := env.maintenanceStatus
    pubResponse :=
      { RevisionToken := "", InsertedExposures := 0,
        ErrorMessage := env.maintenanceMessage, Padding := "", Warnings := [] }
    metrics := none }

/-- Modelled from the spec: what the maintenance gate does when it answers
itself.  Its fixed unavailability response is still routed through the padding
generator, like any other response: the padding step is applied to it, then it
is written. -/
def maintenanceAnswer (env : Env) : List Event :=
  let padded := applyPadding env (maintenanceResult env)
  padded.1 ++ [Event.maintenanceResponse padded.2.status
    padded.2.pubResponse.ErrorMessage padded.2.pubResponse.Padding]

/-- Modelled from the spec: the maintenance gate `maintenance.Responder.Handle`
(package internal/maintenance, defined outside the file).  The flag is read at
request time; when it is set the gate returns its fixed unavailability response,
routed through the padding generator, without calling the wrapped handler;
otherwise it calls the wrapped handler. -/
def maintenanceHandle (env : Env) (next : Request → List Event)
    (r : Request) : List Event :=
  if env.config.MaintenanceMode then maintenanceAnswer env else next r

/-- The handler chain: chaff tracker outermost, maintenance gate inside it, the
function literal innermost. -/
def HandleV1Alpha1 (env : Env) : Request → List Event :=
  HandleTrack (HeaderDetector "X-Chaff")
    (maintenanceHandle env (innerHandler env))

/-- The net change of one measure over a run: the sum of what the handler
records itself and of what the metrics closure records. -/
def counterDelta (m : Measure) : List Event → Int
  | [] => 0
  | Event.record m1 v :: rest =>
    (if m1 = m then v else 0) + counterDelta m rest
  | Event.metrics recorded :: rest =>
    ((recorded.filter (fun mv => decide (mv.1 = m))).map Prod.snd).sum + counterDelta m rest
  | _ :: rest => counterDelta m rest

/-- Whether an event is a call of the processor. -/
def Event.isProcess : Event → Bool
  | Event.process _ _ _ => true
  | _ => false

/-- Whether an event is a call of the result's metrics closure. -/
def Event.isMetrics : Event → Bool
  | Event.metrics _ => true
  | _ => false

/-- Whether an event is a call of `generatePadding`. -/
def Event.isGeneratePadding : Event → Bool
  | Event.generatePadding _ _ => true
  | _ => false

/-- Whether an event is a `stats.Record` call made by the handler itself. -/
def Event.isRecord : Event → Bool
  | Event.record _ _ => true
  | _ => false

/-- Whether an event is the answer of the maintenance gate. -/
def Event.isMaintenance : Event → Bool
  | Event.maintenanceResponse _ _ _ => true
  | _ => false

/-- Whether an event is the encoding of the response. -/
def Event.isMarshal : Event → Bool
  | Event.marshalResponse _ _ => true
  | _ => false

/-- The legacy responses written to the client during a run, with their status. -/
def sent : List Event → List (Int × v1alpha1.PublishResponse)
  | [] => []
  | Event.marshalResponse status resp :: rest => (status, resp) :: sent rest
  | _ :: rest => sent rest

/-- The canonical requests handed to the processor during a run. -/
def processed : List Event → List verifyapi.Publish
  | [] => []
  | Event.process req _ _ :: rest => req :: processed rest
  | _ :: rest => processed rest


/-! ## Sample inputs -/

/-- The legacy request of the worked example: one key, regions US and CA. -/
def exampleData : v1alpha1.Publish :=
  { Keys := [{ Key := "k1", IntervalNumber := 100, IntervalCount := 144, TransmissionRisk := 2 }]
    Regions := ["US", "CA"]
    AppPackageName := "com.example.app"
    VerificationPayload := "signed-payload"
    HMACKey := "hmac-secret"
    SymptomOnsetInterval := 98
    RevisionToken := "token-0"
    Padding := "request-padding" }

/-- A successful processor result: one inserted exposure, no padding yet. -/
def exampleResult : response :=
  { status := 200
    pubResponse :=
      { RevisionToken := "token-1", InsertedExposures := 1, ErrorMessage := "",
        Padding := "", Warnings := [] }
    metrics := some [(Measure.other "publish", 1)] }

/-- A request without the chaff header. -/
def exampleRequest : Request :=
  { header := [("Content-Type", "application/json")], userAgent := "okhttp/4", body := "..." }

/-- An environment in which decoding, processing and padding all succeed. -/
def exampleEnv : Env :=
  { config := { ResponsePaddingMinBytes := 1024, ResponsePaddingRange := 1024,
                MaintenanceMode := false }
    HeaderAPIVersion := "x-api-version"
    Unmarshal := fun _ => { code := 200, err := none, data := exampleData }
    platform := fun ua => ua
    process := fun _ _ _ => exampleResult
    generatePadding := fun _ _ => Except.ok "cGFkZGluZw=="
    maintenanceStatus := 503
    maintenanceMessage := "server is in maintenance mode" }

/-- The environment with the outcome of `generatePadding` replaced. -/
def withPadding (env : Env) (outcome : Except String String) : Env :=
  { env with generatePadding := fun _ _ => outcome }

/-- An environment whose decoder rejects the body. -/
def badJSONEnv : Env :=
  { exampleEnv with
    Unmarshal := fun _ =>
      { code := 400, err := some "malformed json at position 1",
        data := { Keys := [], Regions := [], AppPackageName := "", VerificationPayload := "",
                  HMACKey := "", SymptomOnsetInterval := 0, RevisionToken := "",
                  Padding := "" } } }

/-- An environment whose processor result already holds a Padding and whose
padding generator fails. -/
def stalePaddingEnv : Env :=
  { exampleEnv with
    process := fun _ _ _ =>
      { exampleResult with
        pubResponse := { exampleResult.pubResponse with Padding := "stale-padding" } }
    generatePadding := fun _ _ => Except.error "random source failed" }

/-- An environment whose processor result carries no metrics closure. -/
def noMetricsEnv : Env :=
  { exampleEnv with
    process := fun _ _ _ =>
      { status := 500
        pubResponse :=
          { RevisionToken := "", InsertedExposures := 0,
            ErrorMessage := "Internal Server Error", Padding := "", Warnings := [] }
        metrics := none } }

/-- An environment in maintenance mode. -/
def maintenanceEnv : Env :=
  { exampleEnv with config := { exampleEnv.config with MaintenanceMode := true } }

/-- A request carrying the chaff header. -/
def chaffRequest : Request :=
  { exampleRequest with header := [("X-Chaff", "1")] }

/-- An environment whose decoded request repeats a single region. -/
def repeatedRegionEnv : Env :=
  { exampleEnv with
    Unmarshal := fun _ =>
      { code := 200, err := none, data := { exampleData with Regions := ["US", "US"] } } }

/-! ## The key loop -/

theorem upconvertKeys_loop (ks : List v1alpha1.ExposureKey) :
    ∀ (done rest : List verifyapi.ExposureKey), rest.length = ks.length →
      (ks.enumFrom done.length).foldl
          (fun v1keys ik => v1keys.set ik.1 (upconvertKey ik.2)) (done ++ rest)
        = done ++ ks.map upconvertKey := by
  induction ks with
  | nil =>
    intro done rest h
    have : rest = [] := List.length_eq_zero.mp h
    simp [this]
  | cons k ks ih =>
    intro done rest h
    cases rest with
    | nil => simp at h
    | cons s rest =>
      have hlen : rest.length = ks.length := by simpa using h
      have hstep : (done ++ s :: rest).set done.length (upconvertKey k)
          = (done ++ [upconvertKey k]) ++ rest := by
        simp [List.set_append_right]
      have hnext := ih (done ++ [upconvertKey k]) rest hlen
      simp only [List.length_append, List.length_singleton] at hnext
      simp only [List.enumFrom_cons, List.foldl_cons, hstep, hnext]
      simp

theorem upconvertKeys_eq_map (ks : List v1alpha1.ExposureKey) :
    upconvertKeys ks = ks.map upconvertKey := by
  have h := upconvertKeys_loop ks [] (List.replicate ks.length default) (by simp)
  simpa [upconvertKeys, List.enum] using h

/-! ## The two branches of `handleV1Apha1Request` -/

theorem handleV1Apha1Request_ok (env : Env) (r : Request)
    (h : (env.Unmarshal r).err = none) :
    handleV1Apha1Request env r =
      ([Event.startSpan "(*publish.PublishHandler).handleRequest",
        Event.setHeader env.HeaderAPIVersion "v1alpha",
        Event.unmarshal,
        Event.process (upconvert (env.Unmarshal r).data) (env.platform r.userAgent)
          (newVersionBridge (env.Unmarshal r).data.Regions),
        Event.spanEnd],
       env.process (upconvert (env.Unmarshal r).data) (env.platform r.userAgent)
          (newVersionBridge (env.Unmarshal r).data.Regions)) := by
  simp [handleV1Apha1Request, h]

theorem handleV1Apha1Request_err (env : Env) (r : Request) (err : String)
    (h : (env.Unmarshal r).err = some err) :
    handleV1Apha1Request env r =
      ([Event.startSpan "(*publish.PublishHandler).handleRequest",
        Event.setHeader env.HeaderAPIVersion "v1alpha",
        Event.unmarshal,
        Event.spanSetStatus (unmarshalMessage (env.Unmarshal r).code err),
        Event.spanEnd],
       { status := (env.Unmarshal r).code
         pubResponse :=
           { RevisionToken := "", InsertedExposures := 0,
             ErrorMessage := unmarshalMessage (env.Unmarshal r).code err,
             Padding := "", Warnings := [] }
         metrics := some [(Measure.mBadJSON, 1)] }) := by
  simp [handleV1Apha1Request, h]

/-! ## Up-conversion -/

/-- C1: for every legacy request that decodes successfully, the handler hands
exactly one canonical request to the processor and returns the processor's
result; that request has Traveler = true if and only if the Regions list has
more than one entry.  In particular an absent or empty list and a single-entry
list give Traveler = false, and the list US, CA gives Traveler = true. -/
theorem C1_traveler_iff_more_than_one_region (env : Env) (r : Request)
    (hdec : (env.Unmarshal r).err = none) :
    ∃ req clientPlatform bridge,
      (handleV1Apha1Request env r).1.filter Event.isProcess
          = [Event.process req clientPlatform bridge] ∧
      (handleV1Apha1Request env r).2 = env.process req clientPlatform bridge ∧
      (req.Traveler = true ↔ (env.Unmarshal r).data.Regions.length > 1) ∧
      ((env.Unmarshal r).data.Regions = [] → req.Traveler = false) ∧
      (∀ region, (env.Unmarshal r).data.Regions = [region] → req.Traveler = false) ∧
      ((env.Unmarshal r).data.Regions = ["US", "CA"] → req.Traveler = true) := by
  refine ⟨upconvert (env.Unmarshal r).data, env.platform r.userAgent,
    newVersionBridge (env.Unmarshal r).data.Regions, ?_, ?_, ?_, ?_, ?_, ?_⟩
  · rw [handleV1Apha1Request_ok env r hdec]
    simp [List.filter, Event.isProcess]
  · rw [handleV1Apha1Request_ok env r hdec]
  · simp [upconvert]
  · intro h
    simp [upconvert, h]
  · intro region h
    simp [upconvert, h]
  · intro h
    simp [upconvert, h]

/-- Witness of C1 on the worked example (regions US and CA). -/
theorem C1_traveler_iff_more_than_one_region_witness :
    (exampleEnv.Unmarshal exampleRequest).err = none ∧
    ∃ req clientPlatform bridge,
      (handleV1Apha1Request exampleEnv exampleRequest).1.filter Event.isProcess
          = [Event.process req clientPlatform bridge] ∧
      (handleV1Apha1Request exampleEnv exampleRequest).2
          = exampleEnv.process req clientPlatform bridge ∧
      (req.Traveler = true ↔ (exampleEnv.Unmarshal exampleRequest).data.Regions.length > 1) ∧
      ((exampleEnv.Unmarshal exampleRequest).data.Regions = [] → req.Traveler = false) ∧
      (∀ region, (exampleEnv.Unmarshal exampleRequest).data.Regions = [region] →
        req.Traveler = false) ∧
      ((exampleEnv.Unmarshal exampleRequest).data.Regions = ["US", "CA"] →
        req.Traveler = true) :=
  ⟨rfl, C1_traveler_iff_more_than_one_region exampleEnv exampleRequest rfl⟩

/-- C2: for every legacy request that decodes successfully, the up-conversion
produces a canonical request (it has no error case) and copies every common
field: the canonical Keys have the length of the legacy Keys and, at every
index, the same Key, IntervalNumber, IntervalCount and TransmissionRisk, in the
same order (an empty list gives an empty list); HealthAuthorityID is
AppPackageName; VerificationPayload, HMACKey, SymptomOnsetInterval,
RevisionToken and Padding are unchanged. -/
theorem C2_upconvert_copies_common_fields (env : Env) (r : Request)
    (hdec : (env.Unmarshal r).err = none) :
    ∃ req clientPlatform bridge,
      (handleV1Apha1Request env r).1.filter Event.isProcess
          = [Event.process req clientPlatform bridge] ∧
      req.Keys.length = (env.Unmarshal r).data.Keys.length ∧
      (∀ i (h : i < (env.Unmarshal r).data.Keys.length),
        ∃ k, req.Keys[i]? = some k ∧
          k.Key = ((env.Unmarshal r).data.Keys.get ⟨i, h⟩).Key ∧
          k.IntervalNumber = ((env.Unmarshal r).data.Keys.get ⟨i, h⟩).IntervalNumber ∧
          k.IntervalCount = ((env.Unmarshal r).data.Keys.get ⟨i, h⟩).IntervalCount ∧
          k.TransmissionRisk = ((env.Unmarshal r).data.Keys.get ⟨i, h⟩).TransmissionRisk) ∧
      ((env.Unmarshal r).data.Keys = [] → req.Keys = []) ∧
      req.HealthAuthorityID = (env.Unmarshal r).data.AppPackageName ∧
      req.VerificationPayload = (env.Unmarshal r).data.VerificationPayload ∧
      req.HMACKey = (env.Unmarshal r).data.HMACKey ∧
      req.SymptomOnsetInterval = (env.Unmarshal r).data.SymptomOnsetInterval ∧
      req.RevisionToken = (env.Unmarshal r).data.RevisionToken ∧
      req.Padding = (env.Unmarshal r).data.Padding := by
  refine ⟨upconvert (env.Unmarshal r).data, env.platform r.userAgent,
    newVersionBridge (env.Unmarshal r).data.Regions, ?_, ?_, ?_, ?_, rfl, rfl, rfl, rfl, rfl, rfl⟩
  · rw [handleV1Apha1Request_ok env r hdec]
    simp [List.filter, Event.isProcess]
  · simp [upconvert, upconvertKeys_eq_map]
  · intro i h
    refine ⟨upconvertKey ((env.Unmarshal r).data.Keys.get ⟨i, h⟩), ?_, rfl, rfl, rfl, rfl⟩
    simp [upconvert, upconvertKeys_eq_map, List.getElem?_map, List.getElem?_eq_getElem h]
  · intro h
    simp [upconvert, upconvertKeys_eq_map, h]

/-- Witness of C2 on the worked example. -/
theorem C2_upconvert_copies_common_fields_witness :
    (exampleEnv.Unmarshal exampleRequest).err = none ∧
    ∃ req clientPlatform bridge,
      (handleV1Apha1Request exampleEnv exampleRequest).1.filter Event.isProcess
          = [Event.process req clientPlatform bridge] ∧
      req.Keys.length = exampleData.Keys.length ∧
      req.Keys[0]? = some { Key := "k1", IntervalNumber := 100, IntervalCount := 144,
                            TransmissionRisk := 2 } ∧
      req.HealthAuthorityID = "com.example.app" ∧
      req.VerificationPayload = "signed-payload" ∧
      req.HMACKey = "hmac-secret" ∧
      req.SymptomOnsetInterval = 98 ∧
      req.RevisionToken = "token-0" ∧
      req.Padding = "request-padding" := by
  obtain ⟨req, cp, br, hp, hlen, hkeys, -, h1, h2, h3, h4, h5, h6⟩ :=
    C2_upconvert_copies_common_fields exampleEnv exampleRequest rfl
  obtain ⟨k, hk, hk1, hk2, hk3, hk4⟩ := hkeys 0 (by decide)
  refine ⟨rfl, req, cp, br, hp, hlen, ?_, h1, h2, h3, h4, h5, h6⟩
  rw [hk]
  have hk1 : k.Key = "k1" := hk1
  have hk2 : k.IntervalNumber = 100 := hk2
  have hk3 : k.IntervalCount = 144 := hk3
  have hk4 : k.TransmissionRisk = 2 := hk4
  cases k
  simp_all

/-! ## Traces of the inner handler -/

theorem unmarshalMessage_ne_empty (code : Int) (err : String) :
    unmarshalMessage code err ≠ "" := by
  intro h
  have hlen := congrArg String.length h
  simp only [unmarshalMessage, String.length_append] at hlen
  have hpos : "error unmarshalling API call, code: ".length = 36 := by decide
  rw [hpos] at hlen
  have h0 : "".length = 0 := rfl
  omega

theorem sent_append (a b : List Event) : sent (a ++ b) = sent a ++ sent b := by
  induction a with
  | nil => rfl
  | cons e a ih => cases e <;> simp [sent, ih]

theorem counterDelta_append (m : Measure) (a b : List Event) :
    counterDelta m (a ++ b) = counterDelta m a + counterDelta m b := by
  induction a with
  | nil => simp [counterDelta]
  | cons e a ih => cases e <;> simp [counterDelta, ih, add_assoc]

theorem applyPadding_ok (env : Env) (resp : response) (padding : String)
    (h : env.generatePadding env.config.ResponsePaddingMinBytes
      env.config.ResponsePaddingRange = Except.ok padding) :
    applyPadding env resp =
      ([Event.generatePadding env.config.ResponsePaddingMinBytes
          env.config.ResponsePaddingRange],
       { resp with pubResponse := { resp.pubResponse with Padding := padding } }) := by
  simp [applyPadding, h]

theorem applyPadding_error (env : Env) (resp : response) (err : String)
    (h : env.generatePadding env.config.ResponsePaddingMinBytes
      env.config.ResponsePaddingRange = Except.error err) :
    applyPadding env resp =
      ([Event.generatePadding env.config.ResponsePaddingMinBytes
          env.config.ResponsePaddingRange,
        Event.record Measure.mPaddingFailed 1,
        Event.logError "failed to padd response" err], resp) := by
  simp [applyPadding, h]

theorem applyPadding_keeps (env : Env) (resp : response) :
    (applyPadding env resp).2.status = resp.status ∧
    (applyPadding env resp).2.metrics = resp.metrics ∧
    (applyPadding env resp).2.pubResponse.RevisionToken = resp.pubResponse.RevisionToken ∧
    (applyPadding env resp).2.pubResponse.InsertedExposures
      = resp.pubResponse.InsertedExposures ∧
    (applyPadding env resp).2.pubResponse.ErrorMessage = resp.pubResponse.ErrorMessage ∧
    (applyPadding env resp).2.pubResponse.Warnings = resp.pubResponse.Warnings := by
  cases h : env.generatePadding env.config.ResponsePaddingMinBytes
      env.config.ResponsePaddingRange with
  | error err => simp [applyPadding_error env resp err h]
  | ok padding => simp [applyPadding_ok env resp padding h]

theorem sent_applyPadding (env : Env) (resp : response) :
    sent (applyPadding env resp).1 = [] := by
  cases h : env.generatePadding env.config.ResponsePaddingMinBytes
      env.config.ResponsePaddingRange with
  | error err => simp [applyPadding_error env resp err h, sent]
  | ok padding => simp [applyPadding_ok env resp padding h, sent]

theorem sent_handleV1Apha1Request (env : Env) (r : Request) :
    sent (handleV1Apha1Request env r).1 = [] := by
  cases h : (env.Unmarshal r).err with
  | none => simp [handleV1Apha1Request_ok env r h, sent]
  | some err => simp [handleV1Apha1Request_err env r err h, sent]

theorem sent_runMetrics (resp : response) : sent (runMetrics resp) = [] := by
  cases h : resp.metrics <;> simp [runMetrics, h, sent]

theorem sent_innerHandler (env : Env) (r : Request) :
    sent (innerHandler env r) =
      [((handleV1Apha1Request env r).2.status,
        downconvert (applyPadding env (handleV1Apha1Request env r).2).2.pubResponse)] := by
  simp [innerHandler, sent_append, sent_handleV1Apha1Request, sent_applyPadding,
    sent_runMetrics, sent, (applyPadding_keeps env (handleV1Apha1Request env r).2).1]

theorem withPadding_handleV1Apha1Request (env : Env) (outcome : Except String String)
    (r : Request) :
    handleV1Apha1Request (withPadding env outcome) r = handleV1Apha1Request env r := rfl

/-! ## Down-conversion and padding -/

/-- C3: for every result of the inner handler (the processor's, or the one of
the decode-failure branch), exactly one legacy response is encoded; it is sent
with the result's HTTP status and has the RevisionToken, InsertedExposures and
Warnings of the result's canonical response, Error equal to its ErrorMessage,
and Padding equal to the canonical Padding as it stands after the padding step
(the generated filler when generation succeeds, the result's own Padding when
it fails). -/
theorem C3_downconvert_preserves_legacy_fields (env : Env) (r : Request) :
    ∃ legacy,
      sent (innerHandler env r) = [((handleV1Apha1Request env r).2.status, legacy)] ∧
      legacy.RevisionToken = (handleV1Apha1Request env r).2.pubResponse.RevisionToken ∧
      legacy.InsertedExposures
        = (handleV1Apha1Request env r).2.pubResponse.InsertedExposures ∧
      legacy.Warnings = (handleV1Apha1Request env r).2.pubResponse.Warnings ∧
      legacy.Error = (handleV1Apha1Request env r).2.pubResponse.ErrorMessage ∧
      legacy.Padding
        = (applyPadding env (handleV1Apha1Request env r).2).2.pubResponse.Padding ∧
      legacy.Padding
        = (match env.generatePadding env.config.ResponsePaddingMinBytes
              env.config.ResponsePaddingRange with
           | Except.ok padding => padding
           | Except.error _ => (handleV1Apha1Request env r).2.pubResponse.Padding) := by
  have hk := applyPadding_keeps env (handleV1Apha1Request env r).2
  refine ⟨downconvert (applyPadding env (handleV1Apha1Request env r).2).2.pubResponse,
    sent_innerHandler env r, hk.2.2.1, hk.2.2.2.1, hk.2.2.2.2.2, hk.2.2.2.2.1, rfl, ?_⟩
  cases h : env.generatePadding env.config.ResponsePaddingMinBytes
      env.config.ResponsePaddingRange with
  | error err => simp [downconvert, applyPadding_error env _ err h]
  | ok padding => simp [downconvert, applyPadding_ok env _ padding h]

/-- C4: when the body fails to decode, the inner handler never calls the
processor; its result carries the status code reported by the decoder (a
4xx-class status, the decoder keeping its contract) and a non-empty
ErrorMessage, which reaches the client as a non-empty legacy Error; and its
deferred metrics action adds exactly 1 to the bad-JSON counter and nothing to
any other counter. -/
theorem C4_decode_failure_response (env : Env) (r : Request) (err : String)
    (hdec : (env.Unmarshal r).err = some err) :
    (handleV1Apha1Request env r).1.filter Event.isProcess = [] ∧
    (innerHandler env r).filter Event.isProcess = [] ∧
    (handleV1Apha1Request env r).2.status = (env.Unmarshal r).code ∧
    (decoderReportsClientError (env.Unmarshal r) = true →
      400 ≤ (handleV1Apha1Request env r).2.status ∧
      (handleV1Apha1Request env r).2.status < 500) ∧
    (handleV1Apha1Request env r).2.pubResponse.ErrorMessage ≠ "" ∧
    (∃ legacy, sent (innerHandler env r) = [((env.Unmarshal r).code, legacy)] ∧
      legacy.Error ≠ "") ∧
    (∃ recorded, (handleV1Apha1Request env r).2.metrics = some recorded ∧
      counterDelta Measure.mBadJSON [Event.metrics recorded] = 1 ∧
      ∀ m, m ≠ Measure.mBadJSON → counterDelta m [Event.metrics recorded] = 0) := by
  have hres := handleV1Apha1Request_err env r err hdec
  have hk := applyPadding_keeps env (handleV1Apha1Request env r).2
  refine ⟨?_, ?_, ?_, ?_, ?_, ?_, ?_⟩
  · simp [hres, Event.isProcess]
  · cases hg : env.generatePadding env.config.ResponsePaddingMinBytes
        env.config.ResponsePaddingRange with
    | error e =>
      simp [innerHandler, hres, applyPadding_error env _ e hg, runMetrics, Event.isProcess]
    | ok padding =>
      simp [innerHandler, hres, applyPadding_ok env _ padding hg, runMetrics, Event.isProcess]
  · simp [hres]
  · intro h
    simpa [hres, decoderReportsClientError, hdec] using h
  · simpa [hres] using unmarshalMessage_ne_empty (env.Unmarshal r).code err
  · refine ⟨downconvert (applyPadding env (handleV1Apha1Request env r).2).2.pubResponse,
      ?_, ?_⟩
    · rw [sent_innerHandler]
      simp [hres]
    · show (applyPadding env (handleV1Apha1Request env r).2).2.pubResponse.ErrorMessage ≠ ""
      rw [hk.2.2.2.2.1]
      simpa [hres] using unmarshalMessage_ne_empty (env.Unmarshal r).code err
  · refine ⟨[(Measure.mBadJSON, 1)], by simp [hres], by simp [counterDelta], ?_⟩
    intro m hm
    have hm2 : ¬ (Measure.mBadJSON = m) := fun h => hm h.symm
    simp [counterDelta, List.filter, hm2]

/-- Witness of C4: a body rejected with status 400. -/
theorem C4_decode_failure_response_witness :
    (badJSONEnv.Unmarshal exampleRequest).err = some "malformed json at position 1" ∧
    decoderReportsClientError (badJSONEnv.Unmarshal exampleRequest) = true ∧
    (innerHandler badJSONEnv exampleRequest).filter Event.isProcess = [] ∧
    (handleV1Apha1Request badJSONEnv exampleRequest).2.status = 400 ∧
    (400 ≤ (handleV1Apha1Request badJSONEnv exampleRequest).2.status ∧
      (handleV1Apha1Request badJSONEnv exampleRequest).2.status < 500) ∧
    (handleV1Apha1Request badJSONEnv exampleRequest).2.pubResponse.ErrorMessage ≠ "" :=
  have h := C4_decode_failure_response badJSONEnv exampleRequest
    "malformed json at position 1" rfl
  ⟨rfl, by decide, h.2.1, h.2.2.1, h.2.2.2.1 (by decide), h.2.2.2.2.1⟩

/-- C5: padding generation failure is fail-open.  The processor keeping its
contract on padding, when `generatePadding` returns an error the response is
still sent, with the same HTTP status, RevisionToken, InsertedExposures, Error
and Warnings as when it succeeds; Error is the result's ErrorMessage, so the
failure is not surfaced; the handler records the padding-failed measure exactly
once, one more than on success; and the Padding of the sent response is empty,
that is, omitted. -/
theorem C5_padding_failure_is_fail_open (env : Env) (r : Request) (err : String)
    (hgen : env.generatePadding env.config.ResponsePaddingMinBytes
      env.config.ResponsePaddingRange = Except.error err)
    (hproc : ∀ req clientPlatform bridge,
      processLeavesPaddingEmpty (env.process req clientPlatform bridge) = true) :
    ∃ failed,
      sent (innerHandler env r) = [((handleV1Apha1Request env r).2.status, failed)] ∧
      (∀ filler, ∃ succeeded,
        sent (innerHandler (withPadding env (Except.ok filler)) r)
          = [((handleV1Apha1Request env r).2.status, succeeded)] ∧
        failed.RevisionToken = succeeded.RevisionToken ∧
        failed.InsertedExposures = succeeded.InsertedExposures ∧
        failed.Error = succeeded.Error ∧
        failed.Warnings = succeeded.Warnings ∧
        counterDelta Measure.mPaddingFailed (innerHandler env r)
          = counterDelta Measure.mPaddingFailed
              (innerHandler (withPadding env (Except.ok filler)) r) + 1) ∧
      failed.Error = (handleV1Apha1Request env r).2.pubResponse.ErrorMessage ∧
      (innerHandler env r).filter Event.isRecord
        = [Event.record Measure.mPaddingFailed 1] ∧
      failed.Padding = "" := by
  have hpad := applyPadding_error env (handleV1Apha1Request env r).2 err hgen
  have hrec : (handleV1Apha1Request env r).1.filter Event.isRecord = [] := by
    cases h : (env.Unmarshal r).err with
    | none => simp [handleV1Apha1Request_ok env r h, Event.isRecord]
    | some e => simp [handleV1Apha1Request_err env r e h, Event.isRecord]
  have hrun : (runMetrics (handleV1Apha1Request env r).2).filter Event.isRecord = [] := by
    cases h : (handleV1Apha1Request env r).2.metrics <;>
      simp [runMetrics, h, Event.isRecord]
  have hempty : (handleV1Apha1Request env r).2.pubResponse.Padding = "" := by
    cases h : (env.Unmarshal r).err with
    | none =>
      rw [handleV1Apha1Request_ok env r h]
      simpa [processLeavesPaddingEmpty] using
        hproc (upconvert (env.Unmarshal r).data) (env.platform r.userAgent)
          (newVersionBridge (env.Unmarshal r).data.Regions)
    | some e => simp [handleV1Apha1Request_err env r e h]
  refine ⟨downconvert (handleV1Apha1Request env r).2.pubResponse, ?_, ?_, rfl, ?_, ?_⟩
  · rw [sent_innerHandler, hpad]
  · intro filler
    have hok := applyPadding_ok (withPadding env (Except.ok filler))
      (handleV1Apha1Request env r).2 filler rfl
    refine ⟨downconvert { (handleV1Apha1Request env r).2.pubResponse with Padding := filler },
      ?_, rfl, rfl, rfl, rfl, ?_⟩
    · rw [sent_innerHandler, withPadding_handleV1Apha1Request, hok]
    · have hm : runMetrics
          { (handleV1Apha1Request env r).2 with
            pubResponse :=
              { (handleV1Apha1Request env r).2.pubResponse with Padding := filler } }
          = runMetrics (handleV1Apha1Request env r).2 := rfl
      simp only [innerHandler, withPadding_handleV1Apha1Request, hok, hpad, hm,
        counterDelta_append]
      simp [counterDelta]
      ring
  · simp only [innerHandler, hpad, List.filter_append, hrec, hrun]
    simp [Event.isRecord]
  · simpa [downconvert] using hempty

/-- Witness of C5: the generator fails on the worked example, whose processor
leaves the Padding empty. -/
theorem C5_padding_failure_is_fail_open_witness :
    (∀ req clientPlatform bridge, processLeavesPaddingEmpty
      ((withPadding exampleEnv (Except.error "random source failed")).process
        req clientPlatform bridge) = true) ∧
    ∃ failed,
      sent (innerHandler (withPadding exampleEnv (Except.error "random source failed"))
        exampleRequest) = [(200, failed)] ∧
      failed.Error = "" ∧
      (innerHandler (withPadding exampleEnv (Except.error "random source failed"))
        exampleRequest).filter Event.isRecord = [Event.record Measure.mPaddingFailed 1] ∧
      failed.Padding = "" := by
  have hproc : ∀ req clientPlatform bridge, processLeavesPaddingEmpty
      ((withPadding exampleEnv (Except.error "random source failed")).process
        req clientPlatform bridge) = true := fun _ _ _ => rfl
  obtain ⟨failed, h1, -, h3, h4, h5⟩ :=
    C5_padding_failure_is_fail_open (withPadding exampleEnv (Except.error "random source failed"))
      exampleRequest "random source failed" rfl hproc
  exact ⟨hproc, failed, h1, h3, h4, h5⟩

/-- C6: every response of the inner handler, whichever branch produced it,
goes through the padding step: `generatePadding` is called exactly once, with
the two configured values, and whenever it succeeds the Padding of the sent
legacy response is exactly the generated filler, whatever Padding the request
carried and whatever Padding the result already held. -/
theorem C6_sent_padding_is_generated_filler (env : Env) (r : Request) (filler : String)
    (hgen : env.generatePadding env.config.ResponsePaddingMinBytes
      env.config.ResponsePaddingRange = Except.ok filler) :
    ∃ legacy,
      sent (innerHandler env r) = [((handleV1Apha1Request env r).2.status, legacy)] ∧
      legacy.Padding = filler ∧
      (innerHandler env r).filter Event.isGeneratePadding
        = [Event.generatePadding env.config.ResponsePaddingMinBytes
            env.config.ResponsePaddingRange] := by
  have hpad := applyPadding_ok env (handleV1Apha1Request env r).2 filler hgen
  have hreq : (handleV1Apha1Request env r).1.filter Event.isGeneratePadding = [] := by
    cases h : (env.Unmarshal r).err with
    | none => simp [handleV1Apha1Request_ok env r h, Event.isGeneratePadding]
    | some e => simp [handleV1Apha1Request_err env r e h, Event.isGeneratePadding]
  refine ⟨downconvert { (handleV1Apha1Request env r).2.pubResponse with Padding := filler },
    ?_, rfl, ?_⟩
  · rw [sent_innerHandler, hpad]
  · simp only [innerHandler, hpad, List.filter_append, hreq]
    cases h : (handleV1Apha1Request env r).2.metrics <;>
      simp [runMetrics, h, Event.isGeneratePadding]

/-- Witness of C6: the result holds a stale Padding, the request carries one
too, and the sent Padding is the fresh filler. -/
theorem C6_sent_padding_is_generated_filler_witness :
    ∃ legacy,
      sent (innerHandler (withPadding stalePaddingEnv (Except.ok "fresh-filler"))
        exampleRequest) = [(200, legacy)] ∧
      legacy.Padding = "fresh-filler" := by
  obtain ⟨legacy, h1, h2, -⟩ :=
    C6_sent_padding_is_generated_filler (withPadding stalePaddingEnv (Except.ok "fresh-filler"))
      exampleRequest "fresh-filler" rfl
  exact ⟨legacy, h1, h2⟩

/-! ## Order of the deferred metrics -/

theorem handleV1Apha1Request_no_late_events (env : Env) (r : Request) :
    ∀ e ∈ (handleV1Apha1Request env r).1,
      e.isMetrics = false ∧ e.isMarshal = false ∧ e.isGeneratePadding = false := by
  cases h : (env.Unmarshal r).err with
  | none =>
    simp [handleV1Apha1Request_ok env r h, Event.isMetrics, Event.isMarshal,
      Event.isGeneratePadding]
  | some err =>
    simp [handleV1Apha1Request_err env r err h, Event.isMetrics, Event.isMarshal,
      Event.isGeneratePadding]

theorem applyPadding_events (env : Env) (resp : response) :
    (∃ e ∈ (applyPadding env resp).1, e.isGeneratePadding = true) ∧
    ∀ e ∈ (applyPadding env resp).1, e.isMetrics = false ∧ e.isMarshal = false := by
  cases h : env.generatePadding env.config.ResponsePaddingMinBytes
      env.config.ResponsePaddingRange with
  | error err =>
    simp [applyPadding_error env resp err h, Event.isMetrics, Event.isMarshal,
      Event.isGeneratePadding]
  | ok padding =>
    simp [applyPadding_ok env resp padding h, Event.isMetrics, Event.isMarshal,
      Event.isGeneratePadding]

/-- Counterexample to C7 as stated: the processor returns a result whose
metrics closure is nil; the response is padded and encoded, and no metrics
closure is called during the run. -/
theorem C7_nil_metrics_counterexample :
    (noMetricsEnv.Unmarshal exampleRequest).err = none ∧
    (handleV1Apha1Request noMetricsEnv exampleRequest).2.metrics = none ∧
    (innerHandler noMetricsEnv exampleRequest).filter Event.isMetrics = [] ∧
    ((innerHandler noMetricsEnv exampleRequest).filter Event.isMetrics).length ≠ 1 ∧
    (sent (innerHandler noMetricsEnv exampleRequest)).length = 1 := by
  decide

/-- C7 (amended): whenever the result of the inner handler carries a metrics
closure, as it always does on the decode-failure branch, the closure is called
exactly once in the run, and the call sits between the padding step and the
encoding: the call of `generatePadding` lies before it, nothing before it
encodes a response, and what follows it is exactly the encoding of the padded
response, with no further padding or recording.  When the result carries no
closure, none is called, and the response is still padded and written: the run
is the call of `generatePadding` followed, at its end, by the one encoding of
the padded response. -/
theorem C7_metrics_once_after_padding_before_encoding (env : Env) (r : Request) :
    (∀ recorded, (handleV1Apha1Request env r).2.metrics = some recorded →
      (innerHandler env r).filter Event.isMetrics = [Event.metrics recorded] ∧
      ∃ before after,
        innerHandler env r = before ++ Event.metrics recorded :: after ∧
        (∃ e ∈ before, e.isGeneratePadding = true) ∧
        (∀ e ∈ before, e.isMetrics = false ∧ e.isMarshal = false) ∧
        after = [Event.marshalResponse (handleV1Apha1Request env r).2.status
          (downconvert (applyPadding env (handleV1Apha1Request env r).2).2.pubResponse)] ∧
        (∀ e ∈ after, e.isMetrics = false ∧ e.isGeneratePadding = false ∧
          e.isRecord = false)) ∧
    ((handleV1Apha1Request env r).2.metrics = none →
      (innerHandler env r).filter Event.isMetrics = [] ∧
      (∃ before,
        innerHandler env r = before ++
          [Event.marshalResponse (handleV1Apha1Request env r).2.status
            (downconvert (applyPadding env (handleV1Apha1Request env r).2).2.pubResponse)] ∧
        (∃ e ∈ before, e.isGeneratePadding = true) ∧
        (∀ e ∈ before, e.isMetrics = false ∧ e.isMarshal = false)) ∧
      sent (innerHandler env r) = [((handleV1Apha1Request env r).2.status,
        downconvert (applyPadding env (handleV1Apha1Request env r).2).2.pubResponse)]) ∧
    (∀ err, (env.Unmarshal r).err = some err →
      ∃ recorded, (handleV1Apha1Request env r).2.metrics = some recorded) := by
  have hk := applyPadding_keeps env (handleV1Apha1Request env r).2
  have hreq := handleV1Apha1Request_no_late_events env r
  have hpad := applyPadding_events env (handleV1Apha1Request env r).2
  have hbefore : ∀ e ∈ (handleV1Apha1Request env r).1
      ++ (applyPadding env (handleV1Apha1Request env r).2).1,
      e.isMetrics = false ∧ e.isMarshal = false := by
    intro e he
    rcases List.mem_append.mp he with h | h
    · exact ⟨(hreq e h).1, (hreq e h).2.1⟩
    · exact hpad.2 e h
  have h0 : ((handleV1Apha1Request env r).1
      ++ (applyPadding env (handleV1Apha1Request env r).2).1).filter Event.isMetrics = [] := by
    rw [List.filter_eq_nil_iff]
    intro e he
    simp [(hbefore e he).1]
  refine ⟨?_, ?_, ?_⟩
  · intro recorded hm
    have hrun : runMetrics (applyPadding env (handleV1Apha1Request env r).2).2
        = [Event.metrics recorded] := by
      simp [runMetrics, hk.2.1, hm]
    have hshape : innerHandler env r
        = ((handleV1Apha1Request env r).1
            ++ (applyPadding env (handleV1Apha1Request env r).2).1)
          ++ Event.metrics recorded ::
            [Event.marshalResponse (handleV1Apha1Request env r).2.status
              (downconvert
                (applyPadding env (handleV1Apha1Request env r).2).2.pubResponse)] := by
      simp [innerHandler, hrun, hk.1]
    refine ⟨?_, _, _, hshape, ?_, hbefore, rfl, ?_⟩
    · rw [hshape, List.filter_append, h0]
      simp [Event.isMetrics]
    · obtain ⟨e, he, hp⟩ := hpad.1
      exact ⟨e, List.mem_append.mpr (Or.inr he), hp⟩
    · intro e he
      simp only [List.mem_singleton] at he
      subst he
      exact ⟨rfl, rfl, rfl⟩
  · intro hm
    have hrun : runMetrics (applyPadding env (handleV1Apha1Request env r).2).2 = [] := by
      simp [runMetrics, hk.2.1, hm]
    have hshape : innerHandler env r
        = ((handleV1Apha1Request env r).1
            ++ (applyPadding env (handleV1Apha1Request env r).2).1)
          ++ [Event.marshalResponse (handleV1Apha1Request env r).2.status
              (downconvert
                (applyPadding env (handleV1Apha1Request env r).2).2.pubResponse)] := by
      simp [innerHandler, hrun, hk.1]
    refine ⟨?_, ⟨_, hshape, ?_, hbefore⟩, sent_innerHandler env r⟩
    · rw [hshape, List.filter_append, h0]
      simp [Event.isMetrics]
    · obtain ⟨e, he, hp⟩ := hpad.1
      exact ⟨e, List.mem_append.mpr (Or.inr he), hp⟩
  · intro err hdec
    exact ⟨[(Measure.mBadJSON, 1)], by simp [handleV1Apha1Request_err env r err hdec]⟩

/-- Witness of C7 (amended) on the worked example, whose result carries a
closure. -/
theorem C7_metrics_once_after_padding_before_encoding_witness :
    (handleV1Apha1Request exampleEnv exampleRequest).2.metrics
      = some [(Measure.other "publish", 1)] ∧
    (innerHandler exampleEnv exampleRequest).filter Event.isMetrics
      = [Event.metrics [(Measure.other "publish", 1)]] :=
  ⟨rfl, ((C7_metrics_once_after_padding_before_encoding exampleEnv exampleRequest).1
    [(Measure.other "publish", 1)] rfl).1⟩

/-! ## The handler chain -/

theorem innerHandler_process_iff (env : Env) (r : Request) :
    (∃ e ∈ innerHandler env r, e.isProcess = true) ↔ (env.Unmarshal r).err = none := by
  cases h : (env.Unmarshal r).err with
  | none =>
    simp [innerHandler, handleV1Apha1Request_ok env r h, Event.isProcess]
  | some err =>
    cases hg : env.generatePadding env.config.ResponsePaddingMinBytes
        env.config.ResponsePaddingRange with
    | error e =>
      simp [innerHandler, handleV1Apha1Request_err env r err h,
        applyPadding_error env _ e hg, runMetrics, Event.isProcess]
    | ok padding =>
      simp [innerHandler, handleV1Apha1Request_err env r err h,
        applyPadding_ok env _ padding hg, runMetrics, Event.isProcess]

theorem unmarshal_mem_innerHandler (env : Env) (r : Request) :
    Event.unmarshal ∈ innerHandler env r := by
  cases h : (env.Unmarshal r).err with
  | none => simp [innerHandler, handleV1Apha1Request_ok env r h]
  | some err => simp [innerHandler, handleV1Apha1Request_err env r err h]

theorem HandleV1Alpha1_chaff (env : Env) (r : Request)
    (h : HeaderDetector "X-Chaff" r = true) :
    HandleV1Alpha1 env r = [Event.handleChaff] := by
  simp [HandleV1Alpha1, HandleTrack, h]

theorem HandleV1Alpha1_maintenance (env : Env) (r : Request)
    (h : HeaderDetector "X-Chaff" r = false) (hm : env.config.MaintenanceMode = true) :
    HandleV1Alpha1 env r = maintenanceAnswer env := by
  simp [HandleV1Alpha1, HandleTrack, maintenanceHandle, h, hm]

theorem maintenanceAnswer_ok (env : Env) (filler : String)
    (h : env.generatePadding env.config.ResponsePaddingMinBytes
      env.config.ResponsePaddingRange = Except.ok filler) :
    maintenanceAnswer env =
      [Event.generatePadding env.config.ResponsePaddingMinBytes
          env.config.ResponsePaddingRange,
       Event.maintenanceResponse env.maintenanceStatus env.maintenanceMessage filler] := by
  simp [maintenanceAnswer, applyPadding_ok env _ filler h, maintenanceResult]

theorem maintenanceAnswer_error (env : Env) (err : String)
    (h : env.generatePadding env.config.ResponsePaddingMinBytes
      env.config.ResponsePaddingRange = Except.error err) :
    maintenanceAnswer env =
      [Event.generatePadding env.config.ResponsePaddingMinBytes
          env.config.ResponsePaddingRange,
       Event.record Measure.mPaddingFailed 1,
       Event.logError "failed to padd response" err,
       Event.maintenanceResponse env.maintenanceStatus env.maintenanceMessage ""] := by
  simp [maintenanceAnswer, applyPadding_error env _ err h, maintenanceResult]

theorem maintenanceAnswer_events (env : Env) :
    Event.unmarshal ∉ maintenanceAnswer env ∧
    (∀ e ∈ maintenanceAnswer env, e.isProcess = false) ∧
    (maintenanceAnswer env).filter Event.isGeneratePadding
      = [Event.generatePadding env.config.ResponsePaddingMinBytes
          env.config.ResponsePaddingRange] ∧
    ∃ padding, (maintenanceAnswer env).filter Event.isMaintenance
      = [Event.maintenanceResponse env.maintenanceStatus env.maintenanceMessage padding] := by
  cases h : env.generatePadding env.config.ResponsePaddingMinBytes
      env.config.ResponsePaddingRange with
  | error err =>
    simp [maintenanceAnswer_error env err h, Event.isProcess, Event.isGeneratePadding,
      Event.isMaintenance]
  | ok filler =>
    simp [maintenanceAnswer_ok env filler h, Event.isProcess, Event.isGeneratePadding,
      Event.isMaintenance]

theorem HandleV1Alpha1_inner (env : Env) (r : Request)
    (h : HeaderDetector "X-Chaff" r = false) (hm : env.config.MaintenanceMode = false) :
    HandleV1Alpha1 env r = innerHandler env r := by
  simp [HandleV1Alpha1, HandleTrack, maintenanceHandle, h, hm]

/-- C8: in the chain (chaff tracker outermost, maintenance gate inside it,
decoding and processing innermost) the processor is called exactly when the
request carries no X-Chaff header, maintenance mode is off and the body decoded;
the body is decoded exactly when the request carries no X-Chaff header and
maintenance mode is off.  A chaff request is answered by the tracker alone and,
failing that, a request in maintenance mode by the gate alone: neither reaches
decoding or the processor. -/
theorem C8_processor_behind_chaff_maintenance_decode (env : Env) (r : Request) :
    ((∃ e ∈ HandleV1Alpha1 env r, e.isProcess = true) ↔
      (HeaderDetector "X-Chaff" r = false ∧ env.config.MaintenanceMode = false ∧
        (env.Unmarshal r).err = none)) ∧
    (Event.unmarshal ∈ HandleV1Alpha1 env r ↔
      (HeaderDetector "X-Chaff" r = false ∧ env.config.MaintenanceMode = false)) ∧
    (HeaderDetector "X-Chaff" r = true → HandleV1Alpha1 env r = [Event.handleChaff]) ∧
    (HeaderDetector "X-Chaff" r = false → env.config.MaintenanceMode = true →
      HandleV1Alpha1 env r = maintenanceAnswer env ∧
      Event.unmarshal ∉ maintenanceAnswer env ∧
      ∀ e ∈ maintenanceAnswer env, e.isProcess = false) := by
  have hans := maintenanceAnswer_events env
  refine ⟨?_, ?_, HandleV1Alpha1_chaff env r,
    fun hc hm => ⟨HandleV1Alpha1_maintenance env r hc hm, hans.1, hans.2.1⟩⟩
  · cases hc : HeaderDetector "X-Chaff" r with
    | true => simp [HandleV1Alpha1_chaff env r hc, Event.isProcess]
    | false =>
      cases hm : env.config.MaintenanceMode with
      | true =>
        rw [HandleV1Alpha1_maintenance env r hc hm]
        constructor
        · rintro ⟨e, he, hp⟩
          rw [hans.2.1 e he] at hp
          cases hp
        · rintro ⟨-, h, -⟩
          cases h
      | false =>
        rw [HandleV1Alpha1_inner env r hc hm, innerHandler_process_iff]
        simp
  · cases hc : HeaderDetector "X-Chaff" r with
    | true => simp [HandleV1Alpha1_chaff env r hc]
    | false =>
      cases hm : env.config.MaintenanceMode with
      | true =>
        rw [HandleV1Alpha1_maintenance env r hc hm]
        simp [hans.1]
      | false =>
        rw [HandleV1Alpha1_inner env r hc hm]
        simp [unmarshal_mem_innerHandler]

/-- Witness of C8: a chaff request in an environment where everything else
would succeed is answered by the tracker alone. -/
theorem C8_processor_behind_chaff_maintenance_decode_witness :
    HeaderDetector "X-Chaff" chaffRequest = true ∧
    HandleV1Alpha1 exampleEnv chaffRequest = [Event.handleChaff] :=
  ⟨by decide,
    (C8_processor_behind_chaff_maintenance_decode exampleEnv chaffRequest).2.2.1 (by decide)⟩

/-- C9: when maintenance mode is active, a request without the chaff header is
answered by the maintenance gate with its fixed unavailability response, and
that response is routed through the padding generator like any other:
`generatePadding` is called for it, exactly once and with the two configured
values, before it is written; when the call succeeds the Padding of the
response is the generated filler; the response is written whether or not the
call succeeds; the body is not decoded and the processor is not called. -/
theorem C9_maintenance_response_is_padded (env : Env) (r : Request)
    (hchaff : HeaderDetector "X-Chaff" r = false)
    (hm : env.config.MaintenanceMode = true) :
    (HandleV1Alpha1 env r).filter Event.isGeneratePadding
      = [Event.generatePadding env.config.ResponsePaddingMinBytes
          env.config.ResponsePaddingRange] ∧
    (∀ filler, env.generatePadding env.config.ResponsePaddingMinBytes
        env.config.ResponsePaddingRange = Except.ok filler →
      HandleV1Alpha1 env r =
        [Event.generatePadding env.config.ResponsePaddingMinBytes
            env.config.ResponsePaddingRange,
         Event.maintenanceResponse env.maintenanceStatus env.maintenanceMessage filler]) ∧
    (∃ padding, (HandleV1Alpha1 env r).filter Event.isMaintenance
      = [Event.maintenanceResponse env.maintenanceStatus env.maintenanceMessage padding]) ∧
    Event.unmarshal ∉ HandleV1Alpha1 env r ∧
    (HandleV1Alpha1 env r).filter Event.isProcess = [] := by
  have hans := maintenanceAnswer_events env
  rw [HandleV1Alpha1_maintenance env r hchaff hm]
  refine ⟨hans.2.2.1, fun filler hgen => maintenanceAnswer_ok env filler hgen,
    hans.2.2.2, hans.1, ?_⟩
  rw [List.filter_eq_nil_iff]
  intro e he
  simp [hans.2.1 e he]

/-- Witness of C9: maintenance mode on, no chaff header, padding succeeds. -/
theorem C9_maintenance_response_is_padded_witness :
    HeaderDetector "X-Chaff" exampleRequest = false ∧
    maintenanceEnv.config.MaintenanceMode = true ∧
    HandleV1Alpha1 maintenanceEnv exampleRequest =
      [Event.generatePadding 1024 1024,
       Event.maintenanceResponse 503 "server is in maintenance mode" "cGFkZGluZw=="] :=
  ⟨by decide, rfl,
    (C9_maintenance_response_is_padded maintenanceEnv exampleRequest (by decide) rfl).2.1
      "cGFkZGluZw==" rfl⟩

/-! ## Regions read as a set -/

/-- Counterexample to C10 as stated: the decoded Regions repeat one region, so
the set of distinct regions has a single element, and the request handed to the
processor has Traveler = true. -/
theorem C10_repeated_region_counterexample :
    (repeatedRegionEnv.Unmarshal exampleRequest).err = none ∧
    (repeatedRegionEnv.Unmarshal exampleRequest).data.Regions = ["US", "US"] ∧
    (repeatedRegionEnv.Unmarshal exampleRequest).data.Regions.toFinset.card = 1 ∧
    (processed (handleV1Apha1Request repeatedRegionEnv exampleRequest).1).map
      verifyapi.Publish.Traveler = [true] := by
  decide

/-- C10 (amended): for every legacy request that decodes successfully, Traveler
is true if and only if the Regions list has more than one entry, repeated
entries counted.  More than one distinct region always gives Traveler = true;
when no region is repeated, Traveler is true if and only if the set of distinct
regions has more than one element; a list that repeats a single region twice
gives Traveler = true. -/
theorem C10_traveler_counts_entries (env : Env) (r : Request)
    (hdec : (env.Unmarshal r).err = none) :
    ∃ req,
      processed (handleV1Apha1Request env r).1 = [req] ∧
      (req.Traveler = true ↔ (env.Unmarshal r).data.Regions.length > 1) ∧
      ((env.Unmarshal r).data.Regions.toFinset.card > 1 → req.Traveler = true) ∧
      ((env.Unmarshal r).data.Regions.Nodup →
        (req.Traveler = true ↔ (env.Unmarshal r).data.Regions.toFinset.card > 1)) ∧
      (∀ region, (env.Unmarshal r).data.Regions = [region, region] →
        req.Traveler = true) := by
  refine ⟨upconvert (env.Unmarshal r).data, ?_, ?_, ?_, ?_, ?_⟩
  · rw [handleV1Apha1Request_ok env r hdec]
    simp [processed]
  · simp [upconvert]
  · intro h
    have hle := List.toFinset_card_le (env.Unmarshal r).data.Regions
    have : (env.Unmarshal r).data.Regions.length > 1 := by omega
    simpa [upconvert] using this
  · intro hnd
    rw [List.toFinset_card_of_nodup hnd]
    simp [upconvert]
  · intro region h
    simp [upconvert, h]

/-- Witness of C10 (amended): the decoded Regions repeat one region. -/
theorem C10_traveler_counts_entries_witness :
    (repeatedRegionEnv.Unmarshal exampleRequest).err = none ∧
    ∃ req,
      processed (handleV1Apha1Request repeatedRegionEnv exampleRequest).1 = [req] ∧
      req.Traveler = true := by
  obtain ⟨req, h1, -, -, -, h5⟩ :=
    C10_traveler_counts_entries repeatedRegionEnv exampleRequest rfl
  exact ⟨rfl, req, h1, h5 "US" rfl⟩

end publish
